import Mathlib

/-!
Verification of the transactional fund-allocation subsystem of the
Bhaad Suraksha Dal repository (`prismaTransactions` service).

The four workflows (`fileComplaintTransaction`, `approveComplaintTransaction`,
`processPaymentTransaction`, `bulkComplaintRegistrationTransaction`) are
embedded shallowly: the database is a record of lists of rows, each Prisma
transaction body becomes a function `DB → Except TxError (DB × result)`, and
the commit/rollback discipline of `prisma.$transaction` is the `commit`
function below (an error discards every write of the invocation).
Monetary `Prisma.Decimal` amounts are modelled as `Int`; nondeterministic
inputs of the runtime (cuid row ids, `Date.now()` timestamps) are explicit
parameters.
-/

deriving instance DecidableEq for Except

namespace BhaadSuraksha

inductive Severity where
  | LOW
  | MEDIUM
  | HIGH
  | CRITICAL
deriving DecidableEq, Repr

inductive ComplaintStatus where
  | FILED
  | APPROVED
deriving DecidableEq, Repr

/-- String rendering of a complaint status, as interpolated into the
`Cannot approve complaint with status: ...` error message. -/
def ComplaintStatus.str : ComplaintStatus → String
  | .FILED => "FILED"
  | .APPROVED => "APPROVED"

structure Member where
  id : String
  name : String
  email : String
  isActive : Bool
  role : String
deriving DecidableEq, Repr

structure Complaint where
  id : String
  title : String
  description : String
  location : String
  severity : Severity
  memberId : String
  status : ComplaintStatus
  filedAt : Nat
deriving DecidableEq, Repr

structure ReliefFund where
  memberId : String
  totalAllocated : Int
  amountDispersed : Int
  lastUpdated : Nat
deriving DecidableEq, Repr

structure ApprovalRecord where
  id : String
  complaintId : String
  approvedById : String
  amountAllocated : Int
  approvalDate : Nat
deriving DecidableEq, Repr

structure Payment where
  id : String
  memberId : String
  complaintId : String
  amount : Int
  status : String
  paymentMethod : String
  transactionId : String
  processedAt : Nat
deriving DecidableEq, Repr

/-- The relational store: one list of rows per model touched by the
transaction service. -/
structure DB where
  members : List Member
  complaints : List Complaint
  reliefFunds : List ReliefFund
  approvalRecords : List ApprovalRecord
  payments : List Payment
deriving DecidableEq, Repr

/-- The errors thrown inside the four transaction bodies.  In the source all
of them are `new Error(message)`; the constructors record the distinguishing
data and `TxError.message` reproduces the JS message string.
`transactionFailed` is the fresh generic error built by
`fileComplaintTransaction`'s catch block. -/
inductive TxError where
  | memberNotFound (memberId : String)
  | memberInactive (memberId : String)
  | complaintNotFound (complaintId : String)
  | invalidStateTransition (status : ComplaintStatus)
  | fundNotFound (memberId : String)
  | insufficientBalance (available requested : Int)
  | simulatedFailure
  | transactionFailed (msg : String)
deriving DecidableEq, Repr

def TxError.message : TxError → String
  | .memberNotFound m => "Member not found: " ++ m
  | .memberInactive m => "Member is inactive: " ++ m
  | .complaintNotFound _ => "No Complaint found"
  | .invalidStateTransition st => "Cannot approve complaint with status: " ++ st.str
  | .fundNotFound _ => "No ReliefFund found"
  | .insufficientBalance a r =>
      "Insufficient balance. Available: " ++ toString a ++ ", Requested: " ++ toString r
  | .simulatedFailure => "[SIMULATED ERROR] Payment gateway temporarily unavailable"
  | .transactionFailed msg => msg

/-- `tx.member.findUnique(\x7b where: \x7b id \x7d \x7d)`. -/
def findMember (db : DB) (memberId : String) : Option Member :=
  db.members.find? (fun m => m.id == memberId)

/-- `tx.complaint.findUnique / findUniqueOrThrow(\x7b where: \x7b id \x7d \x7d)`. -/
def findComplaint (db : DB) (complaintId : String) : Option Complaint :=
  db.complaints.find? (fun c => c.id == complaintId)

/-- `tx.reliefFund.findUnique / findUniqueOrThrow(\x7b where: \x7b memberId \x7d \x7d)`. -/
def findFund (db : DB) (memberId : String) : Option ReliefFund :=
  db.reliefFunds.find? (fun f => f.memberId == memberId)

/-- `tx.complaint.update(\x7b where: \x7b id \x7d, data: \x7b status \x7d \x7d)` on the row list. -/
def setStatus (cs : List Complaint) (complaintId : String) (st : ComplaintStatus) :
    List Complaint :=
  cs.map (fun c => if c.id == complaintId then { c with status := st } else c)

/-- `tx.reliefFund.update` with `totalAllocated: \x7b increment \x7d` on the row list. -/
def allocate (fs : List ReliefFund) (memberId : String) (amount : Int) (now : Nat) :
    List ReliefFund :=
  fs.map (fun f =>
    if f.memberId == memberId then
      { f with totalAllocated := f.totalAllocated + amount, lastUpdated := now }
    else f)

/-- `tx.reliefFund.update` with `amountDispersed: \x7b increment \x7d` on the row list. -/
def disperse (fs : List ReliefFund) (memberId : String) (amount : Int) (now : Nat) :
    List ReliefFund :=
  fs.map (fun f =>
    if f.memberId == memberId then
      { f with amountDispersed := f.amountDispersed + amount, lastUpdated := now }
    else f)

/-- The zero-balance ReliefFund row created by the lazy fund initialization
(`totalAllocated: 0, amountDispersed: 0`). -/
def zeroFund (memberId : String) (now : Nat) : ReliefFund :=
  { memberId := memberId, totalAllocated := 0, amountDispersed := 0, lastUpdated := now }

/-- The commit/rollback discipline of `prisma.$transaction`: a successful body
commits its final state, a thrown error discards every write of the
invocation. -/
def commit {α : Type} (db : DB) : Except TxError (DB × α) → DB
  | .ok (db', _) => db'
  | .error _ => db

def exceptOk {α : Type} : Except TxError α → Bool
  | .ok _ => true
  | .error _ => false

structure ComplaintData where
  title : String
  description : String
  location : String
  severity : Severity
deriving DecidableEq, Repr

structure FileComplaintResult where
  complaintId : String
  title : String
  memberId : String
  status : ComplaintStatus
  filedAt : Nat
deriving DecidableEq, Repr

/-- The Complaint row created by `tx.complaint.create` in scenario 1 (and,
with ids supplied per batch index, by scenario 4's `createMany`). -/
def mkComplaint (complaintData : ComplaintData) (memberId newComplaintId : String)
    (now : Nat) : Complaint :=
  { id := newComplaintId
    title := complaintData.title
    description := complaintData.description
    location := complaintData.location
    severity := complaintData.severity
    memberId := memberId
    status := .FILED
    filedAt := now }

/-- Body of transaction scenario 1 (`fileComplaintTransaction`'s unit of
work): verify the member exists and is active, create the FILED complaint,
lazily initialize the relief fund at zero balances. -/
def fileComplaintBody (memberId : String) (complaintData : ComplaintData)
    (newComplaintId : String) (now : Nat) (db : DB) :
    Except TxError (DB × FileComplaintResult) :=
  match findMember db memberId with
  | none => .error (.memberNotFound memberId)
  | some member =>
    if !member.isActive then .error (.memberInactive memberId)
    else
      let complaint : Complaint := mkComplaint complaintData memberId newComplaintId now
      let db1 : DB := { db with complaints := db.complaints ++ [complaint] }
      let db2 : DB :=
        match findFund db1 memberId with
        | some _ => db1
        | none =>
          { db1 with reliefFunds := db1.reliefFunds ++ [zeroFund memberId now] }
      .ok (db2,
        { complaintId := newComplaintId
          title := complaintData.title
          memberId := memberId
          status := .FILED
          filedAt := now })

/-- `fileComplaintTransaction`: unlike the other three workflows, its catch
block wraps the original error in a fresh generic
`new Error("Transaction failed: " + message)`. -/
def fileComplaintTransaction (memberId : String) (complaintData : ComplaintData)
    (newComplaintId : String) (now : Nat) (db : DB) :
    Except TxError (DB × FileComplaintResult) :=
  match fileComplaintBody memberId complaintData newComplaintId now db with
  | .ok r => .ok r
  | .error e => .error (.transactionFailed ("Transaction failed: " ++ e.message))

structure ApproveResult where
  complaintId : String
  approvalId : String
  amountAllocated : Int
deriving DecidableEq, Repr

/-- Body of transaction scenario 2 (`approveComplaintTransaction`'s unit of
work): fetch the complaint (throw if absent), guard that its status is
exactly FILED, flip it to APPROVED, create the approval record, and increment
the owner's `totalAllocated`.  The source performs no validation whatsoever
on `amountAllocated`. -/
def approveComplaintBody (complaintId adminMemberId : String) (amountAllocated : Int)
    (newApprovalId : String) (now : Nat) (db : DB) :
    Except TxError (DB × ApproveResult) :=
  match findComplaint db complaintId with
  | none => .error (.complaintNotFound complaintId)
  | some complaint =>
    if complaint.status ≠ ComplaintStatus.FILED then
      .error (.invalidStateTransition complaint.status)
    else
      let db1 : DB := { db with complaints := setStatus db.complaints complaintId .APPROVED }
      let approval : ApprovalRecord :=
        { id := newApprovalId
          complaintId := complaintId
          approvedById := adminMemberId
          amountAllocated := amountAllocated
          approvalDate := now }
      let db2 : DB := { db1 with approvalRecords := db1.approvalRecords ++ [approval] }
      match findFund db2 complaint.memberId with
      | none => .error (.fundNotFound complaint.memberId)
      | some _ =>
        let db3 : DB :=
          { db2 with reliefFunds := allocate db2.reliefFunds complaint.memberId amountAllocated now }
        .ok (db3,
          { complaintId := complaintId
            approvalId := newApprovalId
            amountAllocated := amountAllocated })

/-- `approveComplaintTransaction`: its catch block re-raises the original
error unchanged (`throw error`). -/
def approveComplaintTransaction (complaintId adminMemberId : String)
    (amountAllocated : Int) (newApprovalId : String) (now : Nat) (db : DB) :
    Except TxError (DB × ApproveResult) :=
  match approveComplaintBody complaintId adminMemberId amountAllocated newApprovalId now db with
  | .ok r => .ok r
  | .error e => .error e

/-- `Payment.transactionId` generation in the source:
`` `TXN-$\x7bDate.now()\x7d` ``. -/
def genTransactionId (now : Nat) : String :=
  "TXN-" ++ toString now

structure PaymentResult where
  paymentId : String
  transactionId : String
  amount : Int
  status : String
deriving DecidableEq, Repr

/-- The Payment row created by `tx.payment.create` in scenario 3. -/
def mkPayment (memberId complaintId : String) (amount : Int) (newPaymentId : String)
    (now : Nat) : Payment :=
  { id := newPaymentId
    memberId := memberId
    complaintId := complaintId
    amount := amount
    status := "COMPLETED"
    paymentMethod := "BANK_TRANSFER"
    transactionId := genTransactionId now
    processedAt := now }

/-- Body of transaction scenario 3 (`processPaymentTransaction`'s unit of
work): fetch the fund (throw if absent), compute the available balance, throw
`Insufficient balance` when `amount > availableBalance` (the only validation
performed on `amount`), optionally simulate a gateway failure, create the
COMPLETED payment, and increment `amountDispersed`. -/
def processPaymentBody (memberId complaintId : String) (amount : Int)
    (simulateFailure : Bool) (newPaymentId : String) (now : Nat) (db : DB) :
    Except TxError (DB × PaymentResult) :=
  match findFund db memberId with
  | none => .error (.fundNotFound memberId)
  | some reliefFund =>
    let availableBalance := reliefFund.totalAllocated - reliefFund.amountDispersed
    if amount > availableBalance then
      .error (.insufficientBalance availableBalance amount)
    else if simulateFailure then
      .error .simulatedFailure
    else
      let payment : Payment := mkPayment memberId complaintId amount newPaymentId now
      let db1 : DB := { db with payments := db.payments ++ [payment] }
      let db2 : DB := { db1 with reliefFunds := disperse db1.reliefFunds memberId amount now }
      .ok (db2,
        { paymentId := newPaymentId
          transactionId := payment.transactionId
          amount := amount
          status := "COMPLETED" })

/-- `processPaymentTransaction`: its catch block re-raises the original error
unchanged (`throw error`). -/
def processPaymentTransaction (memberId complaintId : String) (amount : Int)
    (simulateFailure : Bool) (newPaymentId : String) (now : Nat) (db : DB) :
    Except TxError (DB × PaymentResult) :=
  match processPaymentBody memberId complaintId amount simulateFailure newPaymentId now db with
  | .ok r => .ok r
  | .error e => .error e

structure BulkEntry where
  memberId : String
  title : String
  description : String
  location : String
  severity : Severity
deriving DecidableEq, Repr

structure BulkResult where
  complaintsCreated : Nat
  fundsInitialized : Nat
deriving DecidableEq, Repr

/-- Modelled from the spec: the Prisma schema declaring the Complaint model
(and thus the uniqueness constraint that `createMany(\x7b skipDuplicates \x7d)`
keys on) is not present in the repository sources — only the documentation of
the older schema is.  Per the spec's design note on Bulk Register, the
duplicate-skip natural key for complaints is the member plus the title. -/
def complaintKeyTaken (cs : List Complaint) (memberId title : String) : Bool :=
  cs.any (fun c => c.memberId == memberId && c.title == title)

/-- `tx.complaint.createMany(\x7b data, skipDuplicates: true \x7d)`: insert the
batch entries in order, skipping any whose key is already taken (by a
pre-existing row or an earlier row of the same batch), and report the number
of rows actually inserted. -/
def createManyComplaints : List BulkEntry → Nat → (Nat → String) → Nat →
    List Complaint → List Complaint × Nat
  | [], _, _, _, cs => (cs, 0)
  | e :: rest, idx, mkId, now, cs =>
    if complaintKeyTaken cs e.memberId e.title then
      createManyComplaints rest (idx + 1) mkId now cs
    else
      let c : Complaint :=
        { id := mkId idx
          title := e.title
          description := e.description
          location := e.location
          severity := e.severity
          memberId := e.memberId
          status := .FILED
          filedAt := now }
      let r := createManyComplaints rest (idx + 1) mkId now (cs ++ [c])
      (r.1, r.2 + 1)

def fundExistsFor (fs : List ReliefFund) (memberId : String) : Bool :=
  fs.any (fun f => f.memberId == memberId)

/-- `tx.reliefFund.createMany(\x7b data, skipDuplicates: true \x7d)`: ReliefFund
is keyed by the unique `memberId`, so an insert is skipped when a row for
that member already exists (pre-existing or earlier in the same batch). -/
def createManyFunds : List String → Nat → List ReliefFund → List ReliefFund × Nat
  | [], _, fs => (fs, 0)
  | m :: rest, now, fs =>
    if fundExistsFor fs m then
      createManyFunds rest now fs
    else
      let r := createManyFunds rest now (fs ++ [zeroFund m now])
      (r.1, r.2 + 1)

/-- `bulkComplaintRegistrationTransaction`: batch-create the complaints with
skip-duplicates, then batch-create zero-balance funds for the batch members
that lack one (the source first filters the batch's memberIds against a
snapshot of existing fund rows, then relies on skip-duplicates for in-batch
repeats), and return the counts of rows actually created.  The body throws
nothing itself; the catch block re-raises unchanged. -/
def bulkComplaintRegistrationTransaction (complaints : List BulkEntry)
    (mkId : Nat → String) (now : Nat) (db : DB) :
    Except TxError (DB × BulkResult) :=
  let created := createManyComplaints complaints 0 mkId now db.complaints
  let memberIds := complaints.map (fun c => c.memberId)
  let freshIds := memberIds.filter (fun m => !(fundExistsFor db.reliefFunds m))
  let newFunds := createManyFunds freshIds now db.reliefFunds
  .ok ({ db with complaints := created.1, reliefFunds := newFunds.1 },
       { complaintsCreated := created.2, fundsInitialized := newFunds.2 })

/-- The spec's ReliefFund invariant for one row:
`0 <= amountDispersed <= totalAllocated`. -/
def FundOk (f : ReliefFund) : Prop :=
  0 ≤ f.amountDispersed ∧ f.amountDispersed ≤ f.totalAllocated

instance (f : ReliefFund) : Decidable (FundOk f) :=
  inferInstanceAs (Decidable (_ ∧ _))

/-- The invariant over every ReliefFund row of a state. -/
def DBFundsOk (db : DB) : Prop :=
  ∀ f ∈ db.reliefFunds, FundOk f

instance (db : DB) : Decidable (DBFundsOk db) :=
  List.decidableBAll _ db.reliefFunds

/-- Schema fact: `ReliefFund.memberId` is a unique key (the code's
`findUnique(\x7b where: \x7b memberId \x7d \x7d)` requires it), so fund rows have
pairwise distinct memberIds. -/
def FundKeysUnique (db : DB) : Prop :=
  (db.reliefFunds.map (fun f => f.memberId)).Nodup

instance (db : DB) : Decidable (FundKeysUnique db) :=
  inferInstanceAs (Decidable (List.Nodup _))

/-- One committed workflow invocation; the nondeterministic runtime inputs
(fresh ids, clock readings) are carried by the constructor. -/
inductive Workflow where
  | file (memberId : String) (complaintData : ComplaintData)
      (newComplaintId : String) (now : Nat)
  | approve (complaintId adminMemberId : String) (amountAllocated : Int)
      (newApprovalId : String) (now : Nat)
  | pay (memberId complaintId : String) (amount : Int) (simulateFailure : Bool)
      (newPaymentId : String) (now : Nat)
  | bulk (complaints : List BulkEntry) (mkId : Nat → String) (now : Nat)

/-- The committed state after one workflow invocation (failed invocations
leave the state unchanged, by atomic rollback). -/
def execWorkflow (db : DB) : Workflow → DB
  | .file m cd cid now => commit db (fileComplaintTransaction m cd cid now db)
  | .approve cid aid amt apid now =>
      commit db (approveComplaintTransaction cid aid amt apid now db)
  | .pay m cid amt sf pid now =>
      commit db (processPaymentTransaction m cid amt sf pid now db)
  | .bulk es mkId now => commit db (bulkComplaintRegistrationTransaction es mkId now db)

/-- The committed state after a sequence of workflow invocations. -/
def execAll (db : DB) : List Workflow → DB
  | [] => db
  | w :: ws => execAll (execWorkflow db w) ws

/-- The amount argument of a workflow, when it has one, is nonnegative.
The source validates neither `amountAllocated` nor the payment `amount`. -/
def NonnegAmounts : Workflow → Prop
  | .approve _ _ amt _ _ => 0 ≤ amt
  | .pay _ _ amt _ _ _ => 0 ≤ amt
  | _ => True

instance : DecidablePred NonnegAmounts := fun w => by
  cases w <;> simp only [NonnegAmounts] <;> infer_instance

/-- Run a batch of payment attempts against one member's fund in sequence.
`params` carries, for each attempt, its `complaintId`, fresh payment id, and
clock reading.  Every workflow runs at `Serializable` isolation in the source,
so a set of concurrent invocations is equivalent to executing them one at a
time in some order; this function is that serial execution, returning the
final committed state and each attempt's outcome in order. -/
def payRun (memberId : String) (amount : Int) :
    List (String × String × Nat) → DB → DB × List (Except TxError PaymentResult)
  | [], db => (db, [])
  | p :: ps, db =>
    let r := processPaymentTransaction memberId p.1 amount false p.2.1 p.2.2 db
    let rest := payRun memberId amount ps (commit db r)
    (rest.1, r.map (fun x => x.2) :: rest.2)

/-- The `transactionId` of a payment attempt's result, when it succeeded. -/
def txnIdOf : Except TxError (DB × PaymentResult) → Option String
  | .ok (_, r) => some r.transactionId
  | .error _ => none

/-! ### Helper lemmas -/

theorem fileTx_commit_eq (m : String) (cd : ComplaintData) (cid : String) (now : Nat)
    (db : DB) :
    commit db (fileComplaintTransaction m cd cid now db) =
      commit db (fileComplaintBody m cd cid now db) := by
  unfold fileComplaintTransaction
  split
  · rename_i r heq
    rw [heq]
  · rename_i e heq
    rw [heq]
    rfl

theorem approveTx_eq_body (cid aid : String) (amt : Int) (apid : String) (now : Nat)
    (db : DB) :
    approveComplaintTransaction cid aid amt apid now db =
      approveComplaintBody cid aid amt apid now db := by
  unfold approveComplaintTransaction
  split <;> rename_i x heq <;> rw [heq]

theorem payTx_eq_body (m c : String) (amt : Int) (sf : Bool) (pid : String) (now : Nat)
    (db : DB) :
    processPaymentTransaction m c amt sf pid now db =
      processPaymentBody m c amt sf pid now db := by
  unfold processPaymentTransaction
  split <;> rename_i x heq <;> rw [heq]

theorem find?_map_of_fix {α : Type} (g : α → α) (p : α → Bool)
    (hg : ∀ a, p (g a) = p a) :
    ∀ l : List α, (l.map g).find? p = (l.find? p).map g := by
  intro l
  induction l with
  | nil => rfl
  | cons a l ih =>
    by_cases h : p a
    · rw [List.map_cons, List.find?_cons_of_pos _ (by rw [hg]; exact h),
        List.find?_cons_of_pos _ h]
      rfl
    · rw [List.map_cons, List.find?_cons_of_neg _ (by rw [hg]; exact h),
        List.find?_cons_of_neg _ h, ih]

theorem map_key_of_fix {α β : Type} (g : α → α) (k : α → β)
    (hg : ∀ a, k (g a) = k a) :
    ∀ l : List α, (l.map g).map k = l.map k := by
  intro l
  induction l with
  | nil => rfl
  | cons a l ih => simp only [List.map_cons, hg, ih]

theorem allocate_fun_key (m : String) (a : Int) (t : Nat) (f : ReliefFund) :
    ((if f.memberId == m then
        { f with totalAllocated := f.totalAllocated + a, lastUpdated := t }
      else f) : ReliefFund).memberId = f.memberId := by
  split <;> rfl

theorem disperse_fun_key (m : String) (a : Int) (t : Nat) (f : ReliefFund) :
    ((if f.memberId == m then
        { f with amountDispersed := f.amountDispersed + a, lastUpdated := t }
      else f) : ReliefFund).memberId = f.memberId := by
  split <;> rfl

theorem setStatus_fun_id (cid : String) (st : ComplaintStatus) (c : Complaint) :
    ((if c.id == cid then { c with status := st } else c) : Complaint).id = c.id := by
  split <;> rfl

theorem allocate_keys (fs : List ReliefFund) (m : String) (a : Int) (t : Nat) :
    (allocate fs m a t).map (fun f => f.memberId) = fs.map (fun f => f.memberId) := by
  unfold allocate
  exact map_key_of_fix _ _ (allocate_fun_key m a t) fs

theorem disperse_keys (fs : List ReliefFund) (m : String) (a : Int) (t : Nat) :
    (disperse fs m a t).map (fun f => f.memberId) = fs.map (fun f => f.memberId) := by
  unfold disperse
  exact map_key_of_fix _ _ (disperse_fun_key m a t) fs

theorem find?_disperse (fs : List ReliefFund) (m m2 : String) (a : Int) (t : Nat) :
    (disperse fs m a t).find? (fun f => f.memberId == m2) =
      (fs.find? (fun f => f.memberId == m2)).map
        (fun f => if f.memberId == m then
            { f with amountDispersed := f.amountDispersed + a, lastUpdated := t }
          else f) := by
  unfold disperse
  exact find?_map_of_fix _ _ (fun f => by rw [disperse_fun_key]) fs

theorem find?_setStatus (cs : List Complaint) (cid cid2 : String) (st : ComplaintStatus) :
    (setStatus cs cid st).find? (fun c => c.id == cid2) =
      (cs.find? (fun c => c.id == cid2)).map
        (fun c => if c.id == cid then { c with status := st } else c) := by
  unfold setStatus
  exact find?_map_of_fix _ _ (fun c => by rw [setStatus_fun_id]) cs

theorem fundExistsFor_eq_true {fs : List ReliefFund} {m : String} :
    fundExistsFor fs m = true ↔ m ∈ fs.map (fun f => f.memberId) := by
  simp [fundExistsFor, List.any_eq_true, List.mem_map, beq_iff_eq]

theorem fundOk_append_zero {fs : List ReliefFund} (h : ∀ f ∈ fs, FundOk f)
    (m : String) (t : Nat) :
    ∀ f ∈ fs ++ [zeroFund m t], FundOk f := by
  intro f hf
  rcases List.mem_append.mp hf with h1 | h1
  · exact h f h1
  · rw [List.mem_singleton] at h1
    subst h1
    exact ⟨le_refl 0, le_refl 0⟩

theorem fundOk_allocate {fs : List ReliefFund} {m : String} {a : Int} {t : Nat}
    (h : ∀ f ∈ fs, FundOk f) (ha : 0 ≤ a) :
    ∀ f ∈ allocate fs m a t, FundOk f := by
  intro f' hf'
  unfold allocate at hf'
  rcases List.mem_map.mp hf' with ⟨f, hf, rfl⟩
  obtain ⟨h1, h2⟩ := h f hf
  split
  · refine ⟨?_, ?_⟩
    · show (0 : Int) ≤ f.amountDispersed
      exact h1
    · show f.amountDispersed ≤ f.totalAllocated + a
      omega
  · exact ⟨h1, h2⟩

theorem fundOk_disperse {fs : List ReliefFund} {m : String} {a : Int} {t : Nat}
    {f0 : ReliefFund}
    (hnd : (fs.map (fun f => f.memberId)).Nodup)
    (hfind : fs.find? (fun f => f.memberId == m) = some f0)
    (h : ∀ f ∈ fs, FundOk f) (ha : 0 ≤ a)
    (hb : a ≤ f0.totalAllocated - f0.amountDispersed) :
    ∀ f ∈ disperse fs m a t, FundOk f := by
  intro f' hf'
  unfold disperse at hf'
  rcases List.mem_map.mp hf' with ⟨f, hf, rfl⟩
  obtain ⟨h1, h2⟩ := h f hf
  split
  · next hkey =>
    have hf0mem : f0 ∈ fs := List.mem_of_find?_eq_some hfind
    have hf0key : (f0.memberId == m) = true :=
      List.find?_some (p := fun (f : ReliefFund) => f.memberId == m) hfind
    have hfeq : f = f0 := by
      apply List.inj_on_of_nodup_map hnd hf hf0mem
      rw [beq_iff_eq] at hkey hf0key
      rw [hkey, hf0key]
    subst hfeq
    refine ⟨?_, ?_⟩
    · show (0 : Int) ≤ f.amountDispersed + a
      omega
    · show f.amountDispersed + a ≤ f.totalAllocated
      omega
  · exact ⟨h1, h2⟩

theorem nodup_append_key {fs : List ReliefFund} {m : String} {t : Nat}
    (hnd : (fs.map (fun f => f.memberId)).Nodup)
    (hnotin : m ∉ fs.map (fun f => f.memberId)) :
    ((fs ++ [zeroFund m t]).map (fun f => f.memberId)).Nodup := by
  rw [List.map_append]
  refine List.nodup_append.mpr ⟨hnd, List.nodup_singleton m, ?_⟩
  intro x hx hx2
  rw [List.map_cons, List.map_nil, List.mem_singleton] at hx2
  subst hx2
  exact hnotin hx

theorem createManyFunds_preserves (now : Nat) :
    ∀ (l : List String) (fs : List ReliefFund),
      (fs.map (fun f => f.memberId)).Nodup → (∀ f ∈ fs, FundOk f) →
      ((createManyFunds l now fs).1.map (fun f => f.memberId)).Nodup ∧
        (∀ f ∈ (createManyFunds l now fs).1, FundOk f) := by
  intro l
  induction l with
  | nil => intro fs h1 h2; exact ⟨h1, h2⟩
  | cons m rest ih =>
    intro fs h1 h2
    unfold createManyFunds
    split
    · exact ih fs h1 h2
    · next hne =>
      have hnotin : m ∉ fs.map (fun f => f.memberId) := by
        intro hmem
        exact hne (fundExistsFor_eq_true.mpr hmem)
      exact ih _ (nodup_append_key h1 hnotin) (fundOk_append_zero h2 m now)

theorem file_step_preserves {m : String} {cd : ComplaintData} {cid : String} {now : Nat}
    {db : DB} (hu : FundKeysUnique db) (hok : DBFundsOk db) :
    FundKeysUnique (commit db (fileComplaintTransaction m cd cid now db)) ∧
      DBFundsOk (commit db (fileComplaintTransaction m cd cid now db)) := by
  rw [fileTx_commit_eq]
  unfold fileComplaintBody
  split
  · exact ⟨hu, hok⟩
  · next member hm =>
    by_cases hact : (!member.isActive) = true
    · rw [if_pos hact]
      exact ⟨hu, hok⟩
    · rw [if_neg hact]
      dsimp only
      split
      · exact ⟨hu, hok⟩
      · next hf =>
        have hnone := List.find?_eq_none.mp hf
        have hnotin : m ∉ db.reliefFunds.map (fun f => f.memberId) := by
          intro hmem
          rcases List.mem_map.mp hmem with ⟨f, hfm, hkey⟩
          exact hnone f hfm (by rw [beq_iff_eq]; exact hkey)
        exact ⟨nodup_append_key hu hnotin, fundOk_append_zero hok m now⟩

theorem approve_step_preserves {cid aid : String} {amt : Int} {apid : String} {now : Nat}
    {db : DB} (hu : FundKeysUnique db) (hok : DBFundsOk db) (ha : 0 ≤ amt) :
    FundKeysUnique (commit db (approveComplaintTransaction cid aid amt apid now db)) ∧
      DBFundsOk (commit db (approveComplaintTransaction cid aid amt apid now db)) := by
  rw [approveTx_eq_body]
  unfold approveComplaintBody
  split
  · exact ⟨hu, hok⟩
  · next complaint hc =>
    by_cases hst : complaint.status ≠ ComplaintStatus.FILED
    · rw [if_pos hst]
      exact ⟨hu, hok⟩
    · rw [if_neg hst]
      dsimp only
      split
      · exact ⟨hu, hok⟩
      · refine ⟨?_, fundOk_allocate hok ha⟩
        unfold FundKeysUnique
        dsimp only [commit]
        rw [allocate_keys]
        exact hu

theorem pay_step_preserves {m c : String} {amt : Int} {sf : Bool} {pid : String}
    {now : Nat} {db : DB} (hu : FundKeysUnique db) (hok : DBFundsOk db) (ha : 0 ≤ amt) :
    FundKeysUnique (commit db (processPaymentTransaction m c amt sf pid now db)) ∧
      DBFundsOk (commit db (processPaymentTransaction m c amt sf pid now db)) := by
  rw [payTx_eq_body]
  unfold processPaymentBody
  split
  · exact ⟨hu, hok⟩
  · next fund hfind =>
    dsimp only
    by_cases hgt : amt > fund.totalAllocated - fund.amountDispersed
    · rw [if_pos hgt]
      exact ⟨hu, hok⟩
    · rw [if_neg hgt]
      cases sf with
      | false =>
        rw [if_neg (by simp)]
        refine ⟨?_, fundOk_disperse hu hfind hok ha (by omega)⟩
        unfold FundKeysUnique
        dsimp only [commit]
        rw [disperse_keys]
        exact hu
      | true =>
        rw [if_pos rfl]
        exact ⟨hu, hok⟩

theorem bulk_step_preserves {es : List BulkEntry} {mkId : Nat → String} {now : Nat}
    {db : DB} (hu : FundKeysUnique db) (hok : DBFundsOk db) :
    FundKeysUnique (commit db (bulkComplaintRegistrationTransaction es mkId now db)) ∧
      DBFundsOk (commit db (bulkComplaintRegistrationTransaction es mkId now db)) := by
  unfold bulkComplaintRegistrationTransaction
  dsimp only
  exact createManyFunds_preserves now _ db.reliefFunds hu hok

theorem workflow_step_preserves {db : DB} {w : Workflow}
    (hu : FundKeysUnique db) (hok : DBFundsOk db) (hw : NonnegAmounts w) :
    FundKeysUnique (execWorkflow db w) ∧ DBFundsOk (execWorkflow db w) := by
  cases w with
  | file m cd cid now => exact file_step_preserves hu hok
  | approve cid aid amt apid now => exact approve_step_preserves hu hok hw
  | pay m c amt sf pid now => exact pay_step_preserves hu hok hw
  | bulk es mkId now => exact bulk_step_preserves hu hok

theorem pay_nofund_eq (c : String) (amt : Int) (sf : Bool) (pid : String) (now : Nat)
    {m : String} {db : DB} (hf : findFund db m = none) :
    processPaymentTransaction m c amt sf pid now db = .error (.fundNotFound m) := by
  rw [payTx_eq_body]
  unfold processPaymentBody
  rw [hf]

theorem pay_fails_eq (c : String) (sf : Bool) (pid : String) (now : Nat)
    {m : String} {amt : Int} {db : DB} {f : ReliefFund} (hf : findFund db m = some f)
    (hgt : amt > f.totalAllocated - f.amountDispersed) :
    processPaymentTransaction m c amt sf pid now db =
      .error (.insufficientBalance (f.totalAllocated - f.amountDispersed) amt) := by
  rw [payTx_eq_body]
  unfold processPaymentBody
  rw [hf]
  dsimp only
  rw [if_pos hgt]

theorem pay_success_eq (c pid : String) (now : Nat)
    {m : String} {amt : Int} {db : DB} {f : ReliefFund} (hf : findFund db m = some f)
    (hle : amt ≤ f.totalAllocated - f.amountDispersed) :
    processPaymentTransaction m c amt false pid now db =
      .ok ({ db with
              payments := db.payments ++ [mkPayment m c amt pid now]
              reliefFunds := disperse db.reliefFunds m amt now },
           { paymentId := pid, transactionId := genTransactionId now, amount := amt,
             status := "COMPLETED" }) := by
  rw [payTx_eq_body]
  unfold processPaymentBody
  rw [hf]
  dsimp only
  rw [if_neg (not_lt.mpr hle)]
  rw [if_neg Bool.false_ne_true]
  rfl

/-! ### Sample states used by concrete theorems -/

/-- A store holding a single ReliefFund row and nothing else. -/
def dbFundOnly (m : String) (total disp : Int) : DB :=
  { members := []
    complaints := []
    reliefFunds := [{ memberId := m, totalAllocated := total, amountDispersed := disp,
                      lastUpdated := 0 }]
    approvalRecords := []
    payments := [] }

/-! ### Claims -/

/-- C1, counterexample: the invariant `0 <= amountDispersed <= totalAllocated`
is not preserved by every committed workflow sequence.  From a state holding
one fund row at zero balances (which satisfies the invariant), the single
committed workflow `processPaymentTransaction "m1" "c1" (-5)` succeeds — the
source checks only `amount > availableBalance`, and `-5 > 0` is false — and
leaves `amountDispersed = -5 < 0`. -/
theorem invariant_violated_by_negative_payment :
    DBFundsOk (dbFundOnly "m1" 0 0) ∧
      ¬ DBFundsOk (execAll (dbFundOnly "m1" 0 0)
          [Workflow.pay "m1" "c1" (-5) false "p1" 7]) := by
  decide

/-- C1 (amended): for every ReliefFund row, after any sequence of committed
workflow invocations (file complaint, approve complaint, process payment,
bulk register) starting from a state satisfying the invariant (with the
schema's unique `memberId` key on ReliefFund), **in which every approval
`amountAllocated` and every payment `amount` is nonnegative**, the invariant
`0 <= amountDispersed <= totalAllocated` holds after every commit. -/
theorem fund_invariant_nonneg_amounts :
    ∀ (ws : List Workflow) (db : DB),
      FundKeysUnique db → DBFundsOk db → (∀ w ∈ ws, NonnegAmounts w) →
      DBFundsOk (execAll db ws) := by
  intro ws
  induction ws with
  | nil => intro db _ hok _; exact hok
  | cons w ws ih =>
    intro db hu hok hws
    have hstep := workflow_step_preserves hu hok (hws w (List.mem_cons_self w ws))
    exact ih (execWorkflow db w) hstep.1 hstep.2
      (fun x hx => hws x (List.mem_cons_of_mem w hx))

/-- Witness for C1's amended theorem at a concrete input. -/
theorem fund_invariant_nonneg_amounts_witness :
    FundKeysUnique (dbFundOnly "m1" 0 0) ∧ DBFundsOk (dbFundOnly "m1" 0 0) ∧
      DBFundsOk (execAll (dbFundOnly "m1" 0 0)
        [Workflow.pay "m1" "c1" 0 false "p1" 7]) :=
  ⟨by decide, by decide,
    fund_invariant_nonneg_amounts [Workflow.pay "m1" "c1" 0 false "p1" 7]
      (dbFundOnly "m1" 0 0) (by decide) (by decide) (by decide)⟩

/-- C2, counterexample: the claim's failure condition is wrong — the source
never validates `amount > 0`.  On a fund with `totalAllocated = 0` and
`amountDispersed = 0`, a payment of `0` (an `amount <= 0`, which the claim
says must fail with `InsufficientBalance`) succeeds and creates a COMPLETED
Payment row. -/
theorem nonpositive_payment_accepted :
    (0 : Int) ≤ 0 ∧
      exceptOk (processPaymentTransaction "m1" "c1" 0 false "p1" 7
        (dbFundOnly "m1" 0 0)) = true ∧
      (commit (dbFundOnly "m1" 0 0)
          (processPaymentTransaction "m1" "c1" 0 false "p1" 7
            (dbFundOnly "m1" 0 0))).payments.length = 1 := by
  decide

/-- C2 (amended): for every call `processPaymentTransaction(memberId,
complaintId, amount)` where a fund row exists for `memberId` (with
`simulateFailure` at its default `false`), the call fails with an
`InsufficientBalance` error carrying the available and the requested amount
if and only if `amount > totalAllocated - amountDispersed` — no positivity
check on `amount` is performed; on such a failure no Payment row is created
and the fund is unchanged; otherwise a Payment with status COMPLETED and the
requested amount is created and `amountDispersed` increases by exactly
`amount`. -/
theorem processPayment_balance_characterization :
    ∀ (m c : String) (amt : Int) (pid : String) (now : Nat) (db : DB) (f : ReliefFund),
      findFund db m = some f →
      (amt > f.totalAllocated - f.amountDispersed →
        processPaymentTransaction m c amt false pid now db =
          .error (.insufficientBalance (f.totalAllocated - f.amountDispersed) amt) ∧
        commit db (processPaymentTransaction m c amt false pid now db) = db) ∧
      (amt ≤ f.totalAllocated - f.amountDispersed →
        processPaymentTransaction m c amt false pid now db =
          .ok ({ db with
                  payments := db.payments ++ [mkPayment m c amt pid now]
                  reliefFunds := disperse db.reliefFunds m amt now },
               { paymentId := pid, transactionId := genTransactionId now, amount := amt,
                 status := "COMPLETED" }) ∧
        findFund (commit db (processPaymentTransaction m c amt false pid now db)) m =
          some { f with amountDispersed := f.amountDispersed + amt, lastUpdated := now }) := by
  intro m c amt pid now db f hf
  constructor
  · intro hgt
    refine ⟨pay_fails_eq c false pid now hf hgt, ?_⟩
    rw [pay_fails_eq c false pid now hf hgt]
    rfl
  · intro hle
    refine ⟨pay_success_eq c pid now hf hle, ?_⟩
    rw [pay_success_eq c pid now hf hle]
    show (disperse db.reliefFunds m amt now).find? (fun g => g.memberId == m) = _
    rw [find?_disperse]
    have hfind : db.reliefFunds.find? (fun g => g.memberId == m) = some f := hf
    rw [hfind]
    have hkey : (f.memberId == m) = true :=
      List.find?_some (p := fun (g : ReliefFund) => g.memberId == m) hfind
    dsimp only [Option.map]
    rw [if_pos hkey]

/-- Witness for C2's amended theorem, at the spec's Scenario 4 numbers: a fund
with 25000 available rejects a 100000 payment and leaves the store unchanged. -/
theorem processPayment_balance_characterization_witness :
    processPaymentTransaction "m1" "cX" 100000 false "p9" 3 (dbFundOnly "m1" 75000 50000) =
        .error (.insufficientBalance 25000 100000) ∧
      commit (dbFundOnly "m1" 75000 50000)
          (processPaymentTransaction "m1" "cX" 100000 false "p9" 3
            (dbFundOnly "m1" 75000 50000)) =
        dbFundOnly "m1" 75000 50000 :=
  (processPayment_balance_characterization "m1" "cX" 100000 "p9" 3
      (dbFundOnly "m1" 75000 50000)
      { memberId := "m1", totalAllocated := 75000, amountDispersed := 50000, lastUpdated := 0 }
      (by decide)).1 (by decide)

/-- A store holding one active member `m1`, one complaint `c1` for `m1` in
status FILED, and one fund row for `m1` with totalAllocated 100. -/
def dbApprove : DB :=
  { members := [{ id := "m1", name := "Asha", email := "asha@x", isActive := true,
                  role := "VOLUNTEER" }]
    complaints := [{ id := "c1", title := "t", description := "d", location := "l",
                     severity := .HIGH, memberId := "m1", status := .FILED, filedAt := 0 }]
    reliefFunds := [{ memberId := "m1", totalAllocated := 100, amountDispersed := 0,
                      lastUpdated := 0 }]
    approvalRecords := []
    payments := [] }

/-- Like `dbApprove`, but the complaint is already APPROVED. -/
def dbApproved : DB :=
  { dbApprove with
      complaints := [{ id := "c1", title := "t", description := "d", location := "l",
                       severity := .HIGH, memberId := "m1", status := .APPROVED,
                       filedAt := 0 }] }

/-- C3, counterexample: `approveComplaintTransaction` performs no validation of
`amountAllocated` at all.  Approving the FILED complaint of `dbApprove` with
`amountAllocated = -50` does not fail with `InvalidAmount`: it succeeds,
creates an ApprovalRecord, flips the status, and drops `totalAllocated` from
100 to 50. -/
theorem approve_nonpositive_amount_accepted :
    (-50 : Int) ≤ 0 ∧
      exceptOk (approveComplaintTransaction "c1" "a1" (-50) "ap1" 5 dbApprove) = true ∧
      (commit dbApprove
          (approveComplaintTransaction "c1" "a1" (-50) "ap1" 5 dbApprove)).approvalRecords.length
        = 1 ∧
      findFund (commit dbApprove
          (approveComplaintTransaction "c1" "a1" (-50) "ap1" 5 dbApprove)) "m1" =
        some { memberId := "m1", totalAllocated := 50, amountDispersed := 0,
               lastUpdated := 5 } ∧
      findComplaint (commit dbApprove
          (approveComplaintTransaction "c1" "a1" (-50) "ap1" 5 dbApprove)) "c1" =
        some { id := "c1", title := "t", description := "d", location := "l",
               severity := .HIGH, memberId := "m1", status := .APPROVED, filedAt := 0 } := by
  decide

/-- C3 (amended): `approveComplaintTransaction` validates only the complaint's
status, never `amountAllocated`: for every `amountAllocated <= 0`, given a
FILED complaint whose member has a fund row, the call succeeds exactly as for
a positive amount — it sets the status to APPROVED, creates the
ApprovalRecord, and adds the non-positive amount to `totalAllocated`. -/
theorem approve_no_amount_validation :
    ∀ (cid aid : String) (amt : Int) (apid : String) (now : Nat) (db : DB)
      (c : Complaint) (f : ReliefFund),
      amt ≤ 0 →
      findComplaint db cid = some c → c.status = ComplaintStatus.FILED →
      findFund db c.memberId = some f →
      approveComplaintTransaction cid aid amt apid now db =
        .ok ({ db with
                complaints := setStatus db.complaints cid .APPROVED
                approvalRecords := db.approvalRecords ++
                  [{ id := apid, complaintId := cid, approvedById := aid,
                     amountAllocated := amt, approvalDate := now }]
                reliefFunds := allocate db.reliefFunds c.memberId amt now },
             { complaintId := cid, approvalId := apid, amountAllocated := amt }) := by
  intro cid aid amt apid now db c f hamt hc hst hf
  rw [approveTx_eq_body]
  unfold approveComplaintBody
  rw [hc]
  dsimp only
  rw [if_neg (by rw [hst]; exact fun h => h rfl)]
  rw [show findFund { db with
      complaints := setStatus db.complaints cid ComplaintStatus.APPROVED
      approvalRecords := db.approvalRecords ++
        [{ id := apid, complaintId := cid, approvedById := aid,
           amountAllocated := amt, approvalDate := now }] } c.memberId = some f from hf]

/-- Witness for C3's amended theorem on `dbApprove` with amount `-50`. -/
theorem approve_no_amount_validation_witness :
    approveComplaintTransaction "c1" "a1" (-50) "ap1" 5 dbApprove =
      .ok ({ dbApprove with
              complaints := setStatus dbApprove.complaints "c1" .APPROVED
              approvalRecords := [{ id := "ap1", complaintId := "c1", approvedById := "a1",
                                    amountAllocated := -50, approvalDate := 5 }]
              reliefFunds := allocate dbApprove.reliefFunds "m1" (-50) 5 },
           { complaintId := "c1", approvalId := "ap1", amountAllocated := -50 }) :=
  approve_no_amount_validation "c1" "a1" (-50) "ap1" 5 dbApprove
    { id := "c1", title := "t", description := "d", location := "l",
      severity := .HIGH, memberId := "m1", status := .FILED, filedAt := 0 }
    { memberId := "m1", totalAllocated := 100, amountDispersed := 0, lastUpdated := 0 }
    (by decide) (by decide) (by decide) (by decide)

theorem approve_nonfiled_eq (aid : String) (amt : Int) (apid : String) (now : Nat)
    {cid : String} {db : DB} {c : Complaint} (hc : findComplaint db cid = some c)
    (hst : c.status ≠ ComplaintStatus.FILED) :
    approveComplaintTransaction cid aid amt apid now db =
      .error (.invalidStateTransition c.status) := by
  rw [approveTx_eq_body]
  unfold approveComplaintBody
  rw [hc]
  dsimp only
  rw [if_pos hst]

theorem approve_ok_inversion {cid aid : String} {amt : Int} {apid : String} {now : Nat}
    {db db1 : DB} {r : ApproveResult}
    (h : approveComplaintTransaction cid aid amt apid now db = .ok (db1, r)) :
    ∃ c, findComplaint db cid = some c ∧ c.status = ComplaintStatus.FILED ∧
      db1.complaints = setStatus db.complaints cid ComplaintStatus.APPROVED ∧
      db1.approvalRecords = db.approvalRecords ++
        [{ id := apid, complaintId := cid, approvedById := aid, amountAllocated := amt,
           approvalDate := now }] := by
  rw [approveTx_eq_body] at h
  unfold approveComplaintBody at h
  split at h
  · exact Except.noConfusion h
  · next c hc =>
    split at h
    · exact Except.noConfusion h
    · next hst =>
      dsimp only at h
      split at h
      · exact Except.noConfusion h
      · injection h with hpair
        injection hpair with hdb hr
        subst hdb
        exact ⟨c, hc, not_not.mp hst, rfl, rfl⟩

theorem findComplaint_after_setStatus {db : DB} {cid : String} {c : Complaint}
    (hc : findComplaint db cid = some c) :
    (setStatus db.complaints cid ComplaintStatus.APPROVED).find?
        (fun x => x.id == cid) = some { c with status := ComplaintStatus.APPROVED } := by
  rw [find?_setStatus]
  have hc2 : db.complaints.find? (fun x => x.id == cid) = some c := hc
  rw [hc2]
  dsimp only [Option.map]
  rw [if_pos (List.find?_some (p := fun (x : Complaint) => x.id == cid) hc2)]

/-- C4: approving a complaint whose status is not FILED fails with an
`InvalidStateTransition` error whose message names the current status, writes
nothing (the committed state is unchanged, so no ApprovalRecord appears and
the complaint and fund are untouched); and after one successful approval the
second sequential approval of the same complaint errors rather than being a
no-op, leaving exactly one more ApprovalRecord than before the first call. -/
theorem approve_requires_filed_status :
    (∀ (cid aid : String) (amt : Int) (apid : String) (now : Nat) (db : DB)
        (c : Complaint),
        findComplaint db cid = some c → c.status ≠ ComplaintStatus.FILED →
        approveComplaintTransaction cid aid amt apid now db =
          .error (.invalidStateTransition c.status) ∧
        (TxError.invalidStateTransition c.status).message =
          "Cannot approve complaint with status: " ++ c.status.str ∧
        commit db (approveComplaintTransaction cid aid amt apid now db) = db) ∧
    (∀ (cid aid : String) (amt : Int) (apid : String) (now : Nat) (db db1 : DB)
        (r : ApproveResult) (aid2 : String) (amt2 : Int) (apid2 : String) (now2 : Nat),
        approveComplaintTransaction cid aid amt apid now db = .ok (db1, r) →
        approveComplaintTransaction cid aid2 amt2 apid2 now2 db1 =
          .error (.invalidStateTransition ComplaintStatus.APPROVED) ∧
        db1.approvalRecords.length = db.approvalRecords.length + 1 ∧
        commit db1 (approveComplaintTransaction cid aid2 amt2 apid2 now2 db1) = db1) := by
  constructor
  · intro cid aid amt apid now db c hc hst
    refine ⟨approve_nonfiled_eq aid amt apid now hc hst, rfl, ?_⟩
    rw [approve_nonfiled_eq aid amt apid now hc hst]
    rfl
  · intro cid aid amt apid now db db1 r aid2 amt2 apid2 now2 hok
    obtain ⟨c, hc, hF, hcs, har⟩ := approve_ok_inversion hok
    have hc1 : findComplaint db1 cid = some { c with status := ComplaintStatus.APPROVED } := by
      show db1.complaints.find? (fun x => x.id == cid) = _
      rw [hcs]
      exact findComplaint_after_setStatus hc
    have herr := approve_nonfiled_eq aid2 amt2 apid2 now2 hc1
      (fun h => ComplaintStatus.noConfusion h)
    refine ⟨herr, ?_, ?_⟩
    · rw [har, List.length_append]
      rfl
    · rw [herr]
      rfl

/-- A first successful approval: the committed state of approving `dbApprove`'s
FILED complaint with 75000 (the spec's Scenario 2 amount). -/
def dbA1 : DB :=
  commit dbApprove (approveComplaintTransaction "c1" "a1" 75000 "ap1" 1 dbApprove)

/-- Witness for C4's theorem: the already-APPROVED complaint of `dbApproved`
cannot be approved, and after the successful approval producing `dbA1` the
second approval fails while exactly one ApprovalRecord exists. -/
theorem approve_requires_filed_status_witness :
    (approveComplaintTransaction "c1" "x1" 10 "ap9" 2 dbApproved =
        .error (.invalidStateTransition ComplaintStatus.APPROVED)) ∧
    (approveComplaintTransaction "c1" "a2" 20 "ap2" 2 dbA1 =
        .error (.invalidStateTransition ComplaintStatus.APPROVED)) ∧
    dbA1.approvalRecords.length = dbApprove.approvalRecords.length + 1 := by
  refine ⟨?_, ?_, ?_⟩
  · exact (approve_requires_filed_status.1 "c1" "x1" 10 "ap9" 2 dbApproved
      { id := "c1", title := "t", description := "d", location := "l",
        severity := .HIGH, memberId := "m1", status := .APPROVED, filedAt := 0 }
      (by decide) (by decide)).1
  · exact (approve_requires_filed_status.2 "c1" "a1" 75000 "ap1" 1 dbApprove dbA1
      { complaintId := "c1", approvalId := "ap1", amountAllocated := 75000 }
      "a2" 20 "ap2" 2 (by decide)).1
  · exact (approve_requires_filed_status.2 "c1" "a1" 75000 "ap1" 1 dbApprove dbA1
      { complaintId := "c1", approvalId := "ap1", amountAllocated := 75000 }
      "a2" 20 "ap2" 2 (by decide)).2.1

/-- After one successful disbursement of 60 the fund holds
`totalAllocated = 100, amountDispersed = 60`; from such a state every further
payment attempt of 60 fails with `InsufficientBalance 40 60` and leaves the
store untouched. -/
theorem payRun_insufficient (m : String) (t : Nat) :
    ∀ (ps : List (String × String × Nat)) (db : DB),
      db.reliefFunds = [{ memberId := m, totalAllocated := 100, amountDispersed := 60,
                          lastUpdated := t }] →
      payRun m 60 ps db =
        (db, ps.map (fun _ => .error (.insufficientBalance 40 60))) := by
  intro ps
  induction ps with
  | nil => intro db hf; rfl
  | cons p ps ih =>
    intro db hf
    have hfind : findFund db m =
        some { memberId := m, totalAllocated := 100, amountDispersed := 60,
               lastUpdated := t } := by
      show db.reliefFunds.find? (fun f => f.memberId == m) = _
      rw [hf]
      rw [List.find?_cons_of_pos _ (by simp)]
    have hr : processPaymentTransaction m p.1 60 false p.2.1 p.2.2 db =
        .error (.insufficientBalance 40 60) :=
      pay_fails_eq p.1 false p.2.1 p.2.2 hfind (by show (60 : Int) > 100 - 60; decide)
    unfold payRun
    rw [hr]
    dsimp only [commit]
    rw [ih db hf]
    rfl

/-- A store whose only fund row is the contended one:
`totalAllocated = 100, amountDispersed = 0` for member `m`. -/
def dbContention (m : String) (ms : List Member) (cs : List Complaint)
    (ars : List ApprovalRecord) (pys : List Payment) (t : Nat) : DB :=
  { members := ms, complaints := cs,
    reliefFunds := [{ memberId := m, totalAllocated := 100, amountDispersed := 0,
                      lastUpdated := t }],
    approvalRecords := ars, payments := pys }

/-- C5: every workflow runs at `Serializable` isolation (set explicitly in the
source), so N concurrent `processPaymentTransaction` calls are equivalent to
executing them one at a time in some order; `payRun` is that serial
execution.  For every N >= 2 and every order of N payment attempts of 60
against one fund with `totalAllocated = 100, amountDispersed = 0`, exactly
one attempt succeeds and the other N-1 fail with
`InsufficientBalance 40 60` — never two successes. -/
theorem concurrent_payments_single_success :
    ∀ (m : String) (ms : List Member) (cs : List Complaint) (ars : List ApprovalRecord)
      (pys : List Payment) (t : Nat) (ps : List (String × String × Nat)),
      2 ≤ ps.length →
      ((payRun m 60 ps (dbContention m ms cs ars pys t)).2.countP exceptOk = 1 ∧
        (payRun m 60 ps (dbContention m ms cs ars pys t)).2.length = ps.length) ∧
      (∀ r ∈ (payRun m 60 ps (dbContention m ms cs ars pys t)).2,
        exceptOk r = false → r = .error (.insufficientBalance 40 60)) := by
  intro m ms cs ars pys t ps h2
  cases ps with
  | nil => exact absurd h2 (by decide)
  | cons p ps1 =>
    have hfind0 : findFund (dbContention m ms cs ars pys t) m =
        some { memberId := m, totalAllocated := 100, amountDispersed := 0,
               lastUpdated := t } := by
      show (dbContention m ms cs ars pys t).reliefFunds.find? (fun f => f.memberId == m) = _
      rw [show (dbContention m ms cs ars pys t).reliefFunds =
        [{ memberId := m, totalAllocated := 100, amountDispersed := 0,
           lastUpdated := t }] from rfl]
      rw [List.find?_cons_of_pos _ (by simp)]
    have h1 := pay_success_eq p.1 p.2.1 p.2.2 hfind0
      (by show (60 : Int) ≤ 100 - 0; decide)
    have hdisp : disperse (dbContention m ms cs ars pys t).reliefFunds m 60 p.2.2 =
        [{ memberId := m, totalAllocated := 100, amountDispersed := 60,
           lastUpdated := p.2.2 }] := by
      unfold dbContention disperse
      simp
    unfold payRun
    rw [h1]
    dsimp only [commit]
    rw [payRun_insufficient m p.2.2 ps1 _ hdisp]
    dsimp only [Except.map]
    refine ⟨⟨?_, ?_⟩, ?_⟩
    · rw [List.countP_cons_of_pos _ _ (by rfl)]
      rw [List.countP_map]
      simp [Function.comp, exceptOk]
    · simp
    · intro r hr hfail
      rcases List.mem_cons.mp hr with h | h
      · subst h
        simp [exceptOk] at hfail
      · rcases List.mem_map.mp h with ⟨q, hq, rfl⟩
        rfl

/-- Witness for C5 with two concurrent attempts. -/
theorem concurrent_payments_single_success_witness :
    ((payRun "m1" 60 [("cA", "p1", 1), ("cB", "p2", 2)]
        (dbContention "m1" [] [] [] [] 0)).2.countP exceptOk = 1 ∧
      (payRun "m1" 60 [("cA", "p1", 1), ("cB", "p2", 2)]
        (dbContention "m1" [] [] [] [] 0)).2.length =
        ([("cA", "p1", 1), ("cB", "p2", 2)] : List (String × String × Nat)).length) ∧
    (∀ r ∈ (payRun "m1" 60 [("cA", "p1", 1), ("cB", "p2", 2)]
        (dbContention "m1" [] [] [] [] 0)).2,
      exceptOk r = false → r = .error (.insufficientBalance 40 60)) :=
  concurrent_payments_single_success "m1" [] [] [] [] 0
    [("cA", "p1", 1), ("cB", "p2", 2)] (by decide)

/-- A sample complaint payload. -/
def cdT : ComplaintData :=
  { title := "t", description := "d", location := "l", severity := .HIGH }

/-- C6, counterexample: `fileComplaintTransaction` does NOT re-raise the
original error unchanged.  When the member lookup fails inside the unit of
work with `Member not found: mX`, the caller receives a freshly constructed
generic error whose message is prefixed with `Transaction failed: `, not the
original error — so the claim fails for the file-complaint workflow. -/
theorem fileComplaint_wraps_error :
    fileComplaintBody "mX" cdT "c9" 3 (dbFundOnly "m1" 0 0) =
      .error (.memberNotFound "mX") ∧
    fileComplaintTransaction "mX" cdT "c9" 3 (dbFundOnly "m1" 0 0) =
      .error (.transactionFailed "Transaction failed: Member not found: mX") ∧
    (TxError.transactionFailed "Transaction failed: Member not found: mX" ≠
      TxError.memberNotFound "mX") := by
  decide

/-- C6 (amended): for the approve, payment and bulk workflows the caller
receives the identical error raised inside the unit of work, re-raised
unchanged (the bulk body raises none); `fileComplaintTransaction` alone wraps
the inner error in a new generic error whose message is `Transaction
failed: ` followed by the original message, so its callers cannot pattern
match on the original error value. -/
theorem error_propagation_per_workflow :
    (∀ (cid aid : String) (amt : Int) (apid : String) (now : Nat) (db : DB) (e : TxError),
      approveComplaintBody cid aid amt apid now db = .error e →
      approveComplaintTransaction cid aid amt apid now db = .error e) ∧
    (∀ (m c : String) (amt : Int) (sf : Bool) (pid : String) (now : Nat) (db : DB)
        (e : TxError),
      processPaymentBody m c amt sf pid now db = .error e →
      processPaymentTransaction m c amt sf pid now db = .error e) ∧
    (∀ (es : List BulkEntry) (mkId : Nat → String) (now : Nat) (db : DB) (e : TxError),
      bulkComplaintRegistrationTransaction es mkId now db ≠ .error e) ∧
    (∀ (m : String) (cd : ComplaintData) (cid : String) (now : Nat) (db : DB)
        (e : TxError),
      fileComplaintBody m cd cid now db = .error e →
      fileComplaintTransaction m cd cid now db =
        .error (.transactionFailed ("Transaction failed: " ++ e.message))) := by
  refine ⟨?_, ?_, ?_, ?_⟩
  · intro cid aid amt apid now db e h
    rw [approveTx_eq_body, h]
  · intro m c amt sf pid now db e h
    rw [payTx_eq_body, h]
  · intro es mkId now db e h
    exact Except.noConfusion h
  · intro m cd cid now db e h
    unfold fileComplaintTransaction
    rw [h]

/-- Witness for C6's amended theorem at concrete failing inputs of each
workflow. -/
theorem error_propagation_per_workflow_witness :
    approveComplaintTransaction "c1" "a1" 10 "ap" 2 dbApproved =
      .error (.invalidStateTransition ComplaintStatus.APPROVED) ∧
    processPaymentTransaction "m1" "c1" 5 false "p1" 2 (dbFundOnly "m1" 0 0) =
      .error (.insufficientBalance 0 5) ∧
    bulkComplaintRegistrationTransaction [] (fun i => toString i) 0 (dbFundOnly "m1" 0 0) ≠
      .error .simulatedFailure ∧
    fileComplaintTransaction "mX" cdT "c9" 3 (dbFundOnly "m1" 0 0) =
      .error (.transactionFailed ("Transaction failed: " ++
        (TxError.memberNotFound "mX").message)) :=
  ⟨error_propagation_per_workflow.1 "c1" "a1" 10 "ap" 2 dbApproved
      (.invalidStateTransition ComplaintStatus.APPROVED) (by decide),
   error_propagation_per_workflow.2.1 "m1" "c1" 5 false "p1" 2 (dbFundOnly "m1" 0 0)
      (.insufficientBalance 0 5) (by decide),
   error_propagation_per_workflow.2.2.1 [] (fun i => toString i) 0 (dbFundOnly "m1" 0 0)
      .simulatedFailure,
   error_propagation_per_workflow.2.2.2 "mX" cdT "c9" 3
      (dbFundOnly "m1" 0 0) (.memberNotFound "mX") (by decide)⟩

theorem file_notfound_eq {m : String} {cd : ComplaintData} {cid : String} {now : Nat}
    {db : DB} (hm : findMember db m = none) :
    fileComplaintTransaction m cd cid now db =
      .error (.transactionFailed
        ("Transaction failed: " ++ (TxError.memberNotFound m).message)) := by
  unfold fileComplaintTransaction
  rw [show fileComplaintBody m cd cid now db = .error (.memberNotFound m) from by
    unfold fileComplaintBody; rw [hm]]

theorem file_inactive_eq {m : String} {cd : ComplaintData} {cid : String} {now : Nat}
    {db : DB} {member : Member} (hm : findMember db m = some member)
    (hact : member.isActive = false) :
    fileComplaintTransaction m cd cid now db =
      .error (.transactionFailed
        ("Transaction failed: " ++ (TxError.memberInactive m).message)) := by
  unfold fileComplaintTransaction
  rw [show fileComplaintBody m cd cid now db = .error (.memberInactive m) from by
    unfold fileComplaintBody
    rw [hm]
    dsimp only
    rw [if_pos (by rw [hact]; rfl)]]

theorem file_success_existing_fund_eq {m : String} {cd : ComplaintData} {cid : String}
    {now : Nat} {db : DB} {member : Member} {f : ReliefFund}
    (hm : findMember db m = some member) (hact : member.isActive = true)
    (hf : findFund db m = some f) :
    fileComplaintTransaction m cd cid now db =
      .ok ({ db with complaints := db.complaints ++ [mkComplaint cd m cid now] },
           { complaintId := cid, title := cd.title, memberId := m, status := .FILED,
             filedAt := now }) := by
  unfold fileComplaintTransaction
  rw [show fileComplaintBody m cd cid now db =
      .ok ({ db with complaints := db.complaints ++ [mkComplaint cd m cid now] },
           { complaintId := cid, title := cd.title, memberId := m, status := .FILED,
             filedAt := now }) from by
    unfold fileComplaintBody
    rw [hm]
    dsimp only
    rw [if_neg (by simp [hact])]
    rw [show findFund { db with complaints := db.complaints ++ [mkComplaint cd m cid now] }
        m = some f from hf]]

theorem file_success_new_fund_eq {m : String} {cd : ComplaintData} {cid : String}
    {now : Nat} {db : DB} {member : Member}
    (hm : findMember db m = some member) (hact : member.isActive = true)
    (hf : findFund db m = none) :
    fileComplaintTransaction m cd cid now db =
      .ok ({ db with
              complaints := db.complaints ++ [mkComplaint cd m cid now]
              reliefFunds := db.reliefFunds ++ [zeroFund m now] },
           { complaintId := cid, title := cd.title, memberId := m, status := .FILED,
             filedAt := now }) := by
  unfold fileComplaintTransaction
  rw [show fileComplaintBody m cd cid now db =
      .ok ({ db with
              complaints := db.complaints ++ [mkComplaint cd m cid now]
              reliefFunds := db.reliefFunds ++ [zeroFund m now] },
           { complaintId := cid, title := cd.title, memberId := m, status := .FILED,
             filedAt := now }) from by
    unfold fileComplaintBody
    rw [hm]
    dsimp only
    rw [if_neg (by simp [hact])]
    rw [show findFund { db with complaints := db.complaints ++ [mkComplaint cd m cid now] }
        m = none from hf]]

/-- C7: `fileComplaintTransaction(memberId, data)` — if the member does not
exist or is inactive the call fails (the member-not-found / member-inactive
cause is preserved inside the re-raised error's message) and the committed
state is unchanged, so no complaint and no fund row is created; if the member
is active it creates exactly one complaint with status FILED, and a fund row
`{totalAllocated := 0, amountDispersed := 0}` is created only when none
exists for the member — an existing fund list is left entirely unchanged, so
repeated calls never create duplicate fund rows or reset balances. -/
theorem fileComplaint_characterization :
    (∀ (m : String) (cd : ComplaintData) (cid : String) (now : Nat) (db : DB),
      findMember db m = none →
      fileComplaintTransaction m cd cid now db =
        .error (.transactionFailed
          ("Transaction failed: " ++ (TxError.memberNotFound m).message)) ∧
      commit db (fileComplaintTransaction m cd cid now db) = db) ∧
    (∀ (m : String) (cd : ComplaintData) (cid : String) (now : Nat) (db : DB)
        (member : Member),
      findMember db m = some member → member.isActive = false →
      fileComplaintTransaction m cd cid now db =
        .error (.transactionFailed
          ("Transaction failed: " ++ (TxError.memberInactive m).message)) ∧
      commit db (fileComplaintTransaction m cd cid now db) = db) ∧
    (∀ (m : String) (cd : ComplaintData) (cid : String) (now : Nat) (db : DB)
        (member : Member) (f : ReliefFund),
      findMember db m = some member → member.isActive = true →
      findFund db m = some f →
      (commit db (fileComplaintTransaction m cd cid now db)).complaints =
        db.complaints ++ [mkComplaint cd m cid now] ∧
      (mkComplaint cd m cid now).status = .FILED ∧
      (commit db (fileComplaintTransaction m cd cid now db)).reliefFunds =
        db.reliefFunds) ∧
    (∀ (m : String) (cd : ComplaintData) (cid : String) (now : Nat) (db : DB)
        (member : Member),
      findMember db m = some member → member.isActive = true →
      findFund db m = none →
      (commit db (fileComplaintTransaction m cd cid now db)).complaints =
        db.complaints ++ [mkComplaint cd m cid now] ∧
      (commit db (fileComplaintTransaction m cd cid now db)).reliefFunds =
        db.reliefFunds ++ [zeroFund m now]) := by
  refine ⟨?_, ?_, ?_, ?_⟩
  · intro m cd cid now db hm
    refine ⟨file_notfound_eq hm, ?_⟩
    rw [file_notfound_eq hm]
    rfl
  · intro m cd cid now db member hm hact
    refine ⟨file_inactive_eq hm hact, ?_⟩
    rw [file_inactive_eq hm hact]
    rfl
  · intro m cd cid now db member f hm hact hf
    rw [file_success_existing_fund_eq hm hact hf]
    exact ⟨rfl, rfl, rfl⟩
  · intro m cd cid now db member hm hact hf
    rw [file_success_new_fund_eq hm hact hf]
    exact ⟨rfl, rfl⟩

/-- A store with one inactive member and nothing else. -/
def dbInactive : DB :=
  { members := [{ id := "m2", name := "Nil", email := "n@x", isActive := false,
                  role := "VOLUNTEER" }]
    complaints := [], reliefFunds := [], approvalRecords := [], payments := [] }

/-- A store with one active member and no fund row. -/
def dbActiveNoFund : DB :=
  { members := [{ id := "m3", name := "Ria", email := "r@x", isActive := true,
                  role := "VOLUNTEER" }]
    complaints := [], reliefFunds := [], approvalRecords := [], payments := [] }

/-- Witness for C7 at concrete inputs covering all four branches. -/
theorem fileComplaint_characterization_witness :
    commit (dbFundOnly "m1" 0 0)
        (fileComplaintTransaction "mX" cdT "c9" 3 (dbFundOnly "m1" 0 0)) =
      dbFundOnly "m1" 0 0 ∧
    commit dbInactive (fileComplaintTransaction "m2" cdT "c8" 3 dbInactive) =
      dbInactive ∧
    (commit dbApprove (fileComplaintTransaction "m1" cdT "c7" 3 dbApprove)).reliefFunds =
      dbApprove.reliefFunds ∧
    (commit dbActiveNoFund
        (fileComplaintTransaction "m3" cdT "c6" 3 dbActiveNoFund)).reliefFunds =
      dbActiveNoFund.reliefFunds ++ [zeroFund "m3" 3] :=
  ⟨(fileComplaint_characterization.1 "mX" cdT "c9" 3 (dbFundOnly "m1" 0 0) (by decide)).2,
   (fileComplaint_characterization.2.1 "m2" cdT "c8" 3 dbInactive
      { id := "m2", name := "Nil", email := "n@x", isActive := false, role := "VOLUNTEER" }
      (by decide) (by decide)).2,
   (fileComplaint_characterization.2.2.1 "m1" cdT "c7" 3 dbApprove
      { id := "m1", name := "Asha", email := "asha@x", isActive := true, role := "VOLUNTEER" }
      { memberId := "m1", totalAllocated := 100, amountDispersed := 0, lastUpdated := 0 }
      (by decide) (by decide) (by decide)).2.2,
   (fileComplaint_characterization.2.2.2 "m3" cdT "c6" 3 dbActiveNoFund
      { id := "m3", name := "Ria", email := "r@x", isActive := true, role := "VOLUNTEER" }
      (by decide) (by decide) (by decide)).2⟩

theorem complaintKeyTaken_append {cs l : List Complaint} {k t : String}
    (h : complaintKeyTaken cs k t = true) :
    complaintKeyTaken (cs ++ l) k t = true := by
  unfold complaintKeyTaken at h ⊢
  rw [List.any_append, h]
  rfl

theorem createManyComplaints_keyTaken_mono :
    ∀ (es : List BulkEntry) (idx : Nat) (mkId : Nat → String) (now : Nat)
      (cs : List Complaint) (k t : String),
      complaintKeyTaken cs k t = true →
      complaintKeyTaken (createManyComplaints es idx mkId now cs).1 k t = true := by
  intro es
  induction es with
  | nil => intro idx mkId now cs k t h; exact h
  | cons e rest ih =>
    intro idx mkId now cs k t h
    unfold createManyComplaints
    split
    · exact ih _ _ _ _ _ _ h
    · exact ih _ _ _ _ _ _ (complaintKeyTaken_append h)

theorem createManyComplaints_covers :
    ∀ (es : List BulkEntry) (idx : Nat) (mkId : Nat → String) (now : Nat)
      (cs : List Complaint),
      ∀ e ∈ es, complaintKeyTaken (createManyComplaints es idx mkId now cs).1
        e.memberId e.title = true := by
  intro es
  induction es with
  | nil => intro idx mkId now cs e he; exact absurd he (List.not_mem_nil e)
  | cons e1 rest ih =>
    intro idx mkId now cs e he
    unfold createManyComplaints
    rcases List.mem_cons.mp he with rfl | he2
    · split
      · next htaken => exact createManyComplaints_keyTaken_mono _ _ _ _ _ _ _ htaken
      · next hnew =>
        apply createManyComplaints_keyTaken_mono
        unfold complaintKeyTaken
        rw [List.any_append]
        simp
    · split
      · exact ih _ _ _ _ e he2
      · exact ih _ _ _ _ e he2

theorem createManyComplaints_allTaken_eq :
    ∀ (es : List BulkEntry) (idx : Nat) (mkId : Nat → String) (now : Nat)
      (cs : List Complaint),
      (∀ e ∈ es, complaintKeyTaken cs e.memberId e.title = true) →
      createManyComplaints es idx mkId now cs = (cs, 0) := by
  intro es
  induction es with
  | nil => intro idx mkId now cs h; rfl
  | cons e rest ih =>
    intro idx mkId now cs h
    unfold createManyComplaints
    rw [if_pos (h e (List.mem_cons_self e rest))]
    exact ih _ _ _ _ (fun x hx => h x (List.mem_cons_of_mem e hx))

theorem fundExistsFor_append {fs l : List ReliefFund} {m : String}
    (h : fundExistsFor fs m = true) : fundExistsFor (fs ++ l) m = true := by
  unfold fundExistsFor at h ⊢
  rw [List.any_append, h]
  rfl

theorem createManyFunds_mono :
    ∀ (l : List String) (now : Nat) (fs : List ReliefFund) (m : String),
      fundExistsFor fs m = true →
      fundExistsFor (createManyFunds l now fs).1 m = true := by
  intro l
  induction l with
  | nil => intro now fs m h; exact h
  | cons m1 rest ih =>
    intro now fs m h
    unfold createManyFunds
    split
    · exact ih _ _ _ h
    · exact ih _ _ _ (fundExistsFor_append h)

theorem createManyFunds_covers :
    ∀ (l : List String) (now : Nat) (fs : List ReliefFund),
      ∀ m ∈ l, fundExistsFor (createManyFunds l now fs).1 m = true := by
  intro l
  induction l with
  | nil => intro now fs m hm; exact absurd hm (List.not_mem_nil m)
  | cons m1 rest ih =>
    intro now fs m hm
    unfold createManyFunds
    rcases List.mem_cons.mp hm with rfl | hm2
    · split
      · next hex => exact createManyFunds_mono _ _ _ _ hex
      · apply createManyFunds_mono
        unfold fundExistsFor
        rw [List.any_append]
        simp [zeroFund]
    · split
      · exact ih _ _ m hm2
      · exact ih _ _ m hm2

theorem createManyFunds_allExist_eq :
    ∀ (l : List String) (now : Nat) (fs : List ReliefFund),
      (∀ m ∈ l, fundExistsFor fs m = true) →
      createManyFunds l now fs = (fs, 0) := by
  intro l
  induction l with
  | nil => intro now fs h; rfl
  | cons m rest ih =>
    intro now fs h
    unfold createManyFunds
    rw [if_pos (h m (List.mem_cons_self m rest))]
    exact ih _ _ (fun x hx => h x (List.mem_cons_of_mem m hx))

/-- A bulk registration against a state that already contains every entry's
complaint key and a fund row for every entry's member creates nothing and
returns zero counts. -/
theorem bulk_noop_of_covered {entries : List BulkEntry} {mkId2 : Nat → String}
    {now2 : Nat} {db1 : DB}
    (hc : ∀ e ∈ entries, complaintKeyTaken db1.complaints e.memberId e.title = true)
    (hf : ∀ m ∈ entries.map (fun c => c.memberId),
      fundExistsFor db1.reliefFunds m = true) :
    bulkComplaintRegistrationTransaction entries mkId2 now2 db1 =
      .ok (db1, { complaintsCreated := 0, fundsInitialized := 0 }) := by
  unfold bulkComplaintRegistrationTransaction
  rw [createManyComplaints_allTaken_eq entries 0 mkId2 now2 db1.complaints hc]
  dsimp only
  rw [show (entries.map (fun c => c.memberId)).filter
      (fun x => !(fundExistsFor db1.reliefFunds x)) = [] from
    List.filter_eq_nil_iff.mpr (fun m hm => by rw [hf m hm]; decide)]
  rfl

/-- C8 (spec-modelled duplicate key): `bulkComplaintRegistrationTransaction`
returns the counts of rows actually created, not the input list length — in
particular, re-running a batch identical to one already registered (against
the committed state of the first run) creates no complaint and no fund row
and returns `complaintsCreated = 0, fundsInitialized = 0`, every entry being
skipped as a duplicate, and leaves the state exactly unchanged. -/
theorem bulk_rerun_creates_nothing :
    ∀ (entries : List BulkEntry) (mkId mkId2 : Nat → String) (now now2 : Nat) (db : DB),
      bulkComplaintRegistrationTransaction entries mkId2 now2
          (commit db (bulkComplaintRegistrationTransaction entries mkId now db)) =
        .ok (commit db (bulkComplaintRegistrationTransaction entries mkId now db),
             { complaintsCreated := 0, fundsInitialized := 0 }) := by
  intro entries mkId mkId2 now now2 db
  apply bulk_noop_of_covered
  · intro e he
    exact createManyComplaints_covers entries 0 mkId now db.complaints e he
  · intro m hm
    by_cases hex : fundExistsFor db.reliefFunds m = true
    · exact createManyFunds_mono _ now _ m hex
    · refine createManyFunds_covers _ now _ m ?_
      refine List.mem_filter.mpr ⟨hm, ?_⟩
      rw [show fundExistsFor db.reliefFunds m = false from Bool.eq_false_iff.mpr hex]
      rfl

/-- C9 (code bug): the source generates `Payment.transactionId` as
`` `TXN-${Date.now()}` ``, a bare millisecond timestamp.  Two distinct
payment creations in the same millisecond (`now = 7`, distinct fresh row ids
`p1` and `p2`) both receive the identical transactionId `TXN-7` — the ids are
not collision-free across concurrent callers, contradicting the claim. -/
theorem transactionId_collision_same_instant :
    txnIdOf (processPaymentTransaction "m1" "cA" 50 false "p1" 7
      (dbFundOnly "m1" 200 0)) = some "TXN-7" ∧
    txnIdOf (processPaymentTransaction "m1" "cB" 50 false "p2" 7
      (commit (dbFundOnly "m1" 200 0)
        (processPaymentTransaction "m1" "cA" 50 false "p1" 7
          (dbFundOnly "m1" 200 0)))) = some "TXN-7" ∧
    "p1" ≠ "p2" := by
  decide

/-- C10: the outcome of `processPaymentTransaction` is independent of the
referenced complaint.  For any two states agreeing on every table except
`complaints` (so the referenced complaint may differ in status, owner, or not
exist at all in one of them), the call produces the same success-or-failure
result value and the same committed fund and payment tables: no check that
the complaint exists, belongs to `memberId`, or is APPROVED is performed
before the Payment row is created. -/
theorem processPayment_ignores_complaints :
    ∀ (m c : String) (amt : Int) (pid : String) (now : Nat) (db1 db2 : DB),
      db1.members = db2.members → db1.reliefFunds = db2.reliefFunds →
      db1.approvalRecords = db2.approvalRecords → db1.payments = db2.payments →
      Except.map (fun x => x.2) (processPaymentTransaction m c amt false pid now db1) =
        Except.map (fun x => x.2) (processPaymentTransaction m c amt false pid now db2) ∧
      (commit db1 (processPaymentTransaction m c amt false pid now db1)).reliefFunds =
        (commit db2 (processPaymentTransaction m c amt false pid now db2)).reliefFunds ∧
      (commit db1 (processPaymentTransaction m c amt false pid now db1)).payments =
        (commit db2 (processPaymentTransaction m c amt false pid now db2)).payments := by
  intro m c amt pid now db1 db2 hM hF hA hP
  cases hfind : findFund db1 m with
  | none =>
    have hfind2 : findFund db2 m = none := by
      show db2.reliefFunds.find? (fun f => f.memberId == m) = none
      rw [← hF]
      exact hfind
    rw [pay_nofund_eq c amt false pid now hfind, pay_nofund_eq c amt false pid now hfind2]
    exact ⟨rfl, hF, hP⟩
  | some f =>
    have hfind2 : findFund db2 m = some f := by
      show db2.reliefFunds.find? (fun g => g.memberId == m) = some f
      rw [← hF]
      exact hfind
    by_cases hgt : amt > f.totalAllocated - f.amountDispersed
    · rw [pay_fails_eq c false pid now hfind hgt, pay_fails_eq c false pid now hfind2 hgt]
      exact ⟨rfl, hF, hP⟩
    · have hle := not_lt.mp hgt
      rw [pay_success_eq c pid now hfind hle, pay_success_eq c pid now hfind2 hle]
      refine ⟨rfl, ?_, ?_⟩
      · show disperse db1.reliefFunds m amt now = disperse db2.reliefFunds m amt now
        rw [hF]
      · show db1.payments ++ [mkPayment m c amt pid now] =
          db2.payments ++ [mkPayment m c amt pid now]
        rw [hP]

/-- Witness for C10: `dbApprove` and `dbApproved` differ only in the
referenced complaint's status (FILED versus APPROVED); a payment of 30 gives
identical outcomes and identical committed fund/payment tables. -/
theorem processPayment_ignores_complaints_witness :
    Except.map (fun x => x.2)
        (processPaymentTransaction "m1" "c1" 30 false "p1" 4 dbApprove) =
      Except.map (fun x => x.2)
        (processPaymentTransaction "m1" "c1" 30 false "p1" 4 dbApproved) ∧
    (commit dbApprove
        (processPaymentTransaction "m1" "c1" 30 false "p1" 4 dbApprove)).reliefFunds =
      (commit dbApproved
        (processPaymentTransaction "m1" "c1" 30 false "p1" 4 dbApproved)).reliefFunds ∧
    (commit dbApprove
        (processPaymentTransaction "m1" "c1" 30 false "p1" 4 dbApprove)).payments =
      (commit dbApproved
        (processPaymentTransaction "m1" "c1" 30 false "p1" 4 dbApproved)).payments :=
  processPayment_ignores_complaints "m1" "c1" 30 "p1" 4 dbApprove dbApproved
    (by decide) (by decide) (by decide) (by decide)

end BhaadSuraksha
